import Mathlib

/-!
Verification of the pipet agent core: the pet state store, mood engine,
rate limiter, tool-use orchestration loop, command sandbox and
persistence layer, embedded shallowly from the Go sources.

Numeric fields (Go float64) are modelled as rationals; timestamps are
rationals measured in hours, so that a difference of timestamps is an
elapsed-hours quantity, matching time.Since(t).Hours().
-/

/-- clamp from internal/pet/state.go: restrict a value to [0, 100]. -/
def clamp (v : ℚ) : ℚ :=
  if v < 0 then 0
  else if v > 100 then 100
  else v

/-- PetState from internal/pet/state.go (mutex omitted; pure record). -/
structure Pet where
  name : String
  speciesID : String
  hunger : ℚ
  happiness : ℚ
  energy : ℚ
  cleanliness : ℚ
  bond : ℚ
  bornAt : ℚ
  lastInteraction : ℚ
  lastFed : ℚ
  isAlive : Bool
  cpuPercent : ℚ
  memPercent : ℚ
  diskPercent : ℚ
  tempC : ℚ
  uptimeDays : ℚ
deriving DecidableEq, Repr

/-- Snapshot from internal/pet/state.go: copy of the fields plus the
derived mood and age. -/
structure Snap where
  name : String
  speciesID : String
  hunger : ℚ
  happiness : ℚ
  energy : ℚ
  cleanliness : ℚ
  bond : ℚ
  bornAt : ℚ
  lastInteraction : ℚ
  lastFed : ℚ
  isAlive : Bool
  cpuPercent : ℚ
  memPercent : ℚ
  diskPercent : ℚ
  tempC : ℚ
  uptimeDays : ℚ
  mood : String
  ageDays : ℚ
deriving DecidableEq, Repr

/-- DetermineMood from internal/pet/mood.go: priority-ordered cascade. -/
def DetermineMood (s : Snap) : String :=
  if !s.isAlive then "dead"
  else if s.memPercent > 90 then "sick"
  else if s.tempC > 70 then "anxious"
  else if s.energy < 20 then "sleepy"
  else if s.hunger > 70 then "hungry"
  else if s.happiness < 30 then "bored"
  else if s.happiness > 70 && s.hunger < 40 && s.energy > 40 then "happy"
  else "content"

/-- NewPetState from internal/pet/state.go: fresh pet with starting
stats (system-metric fields take Go's zero value). -/
def newPetState (name speciesID : String) (now : ℚ) : Pet :=
  { name := name
    speciesID := speciesID
    hunger := 20
    happiness := 80
    energy := 80
    cleanliness := 80
    bond := 10
    bornAt := now
    lastInteraction := now
    lastFed := now
    isAlive := true
    cpuPercent := 0
    memPercent := 0
    diskPercent := 0
    tempC := 0
    uptimeDays := 0 }

/-- PetState.Snapshot: copy all fields, then fill in the derived mood
and age (mood reads only the copied fields). -/
def Pet.snapshot (s : Pet) (now : ℚ) : Snap :=
  let base : Snap :=
    { name := s.name
      speciesID := s.speciesID
      hunger := s.hunger
      happiness := s.happiness
      energy := s.energy
      cleanliness := s.cleanliness
      bond := s.bond
      bornAt := s.bornAt
      lastInteraction := s.lastInteraction
      lastFed := s.lastFed
      isAlive := s.isAlive
      cpuPercent := s.cpuPercent
      memPercent := s.memPercent
      diskPercent := s.diskPercent
      tempC := s.tempC
      uptimeDays := s.uptimeDays
      mood := ""
      ageDays := 0 }
  { base with mood := DetermineMood base, ageDays := (now - s.bornAt) / 24 }

/-- PetState.IsOnboarded. -/
def Pet.isOnboarded (s : Pet) : Bool :=
  s.name != "" && s.speciesID != ""

/-- PetState.SetIdentity: set name and species, reset lifecycle and
starting stats. -/
def Pet.setIdentity (s : Pet) (name speciesID : String) (now : ℚ) : Pet :=
  { s with
    name := name
    speciesID := speciesID
    bornAt := now
    lastInteraction := now
    lastFed := now
    isAlive := true
    hunger := 20
    happiness := 80
    energy := 80
    cleanliness := 80
    bond := 10 }

/-- bumpBond from internal/pet/state.go: gain 2, overridden to 1 above
bond 50 and to 0.5 above bond 80, clamped. -/
def Pet.bumpBond (s : Pet) : Pet :=
  let gain : ℚ := 2
  let gain := if s.bond > 50 then 1 else gain
  let gain := if s.bond > 80 then 1/2 else gain
  { s with bond := clamp (s.bond + gain) }

/-- PetState.Feed. -/
def Pet.feed (s : Pet) (now : ℚ) : Pet :=
  let s := { s with
    hunger := clamp (s.hunger - 30)
    happiness := clamp (s.happiness + 5)
    lastFed := now
    lastInteraction := now }
  s.bumpBond

/-- PetState.Play. -/
def Pet.play (s : Pet) (now : ℚ) : Pet :=
  let s := { s with
    happiness := clamp (s.happiness + 20)
    energy := clamp (s.energy - 10)
    hunger := clamp (s.hunger + 5)
    lastInteraction := now }
  s.bumpBond

/-- PetState.Pet (affection). -/
def Pet.pet (s : Pet) (now : ℚ) : Pet :=
  let s := { s with
    happiness := clamp (s.happiness + 10)
    lastInteraction := now }
  s.bumpBond

/-- PetState.TouchInteraction. -/
def Pet.touchInteraction (s : Pet) (now : ℚ) : Pet :=
  let s := { s with lastInteraction := now }
  s.bumpBond

/-- PetState.ApplySystemStats: map host telemetry onto vitals, decay
happiness and bond by elapsed hours, and apply the one-way death
trigger. -/
def Pet.applySystemStats (s : Pet) (cpu mem disk tempC uptimeDays now : ℚ) : Pet :=
  let hunger := clamp cpu
  let cleanliness := clamp (100 - disk)
  let energy := clamp (100 - uptimeDays * 14)
  let hoursSince := now - s.lastInteraction
  let happiness := clamp (s.happiness - hoursSince * (1/10))
  let bond := clamp (s.bond - hoursSince * (5/100))
  let alive := if hunger ≥ 95 ∧ mem ≥ 95 ∧ energy ≤ 5 then false else s.isAlive
  { s with
    cpuPercent := cpu
    memPercent := mem
    diskPercent := disk
    tempC := tempC
    uptimeDays := uptimeDays
    hunger := hunger
    cleanliness := cleanliness
    energy := energy
    happiness := happiness
    bond := bond
    isAlive := alive }

/-- PetState.Kill. -/
def Pet.kill (s : Pet) : Pet :=
  { s with isAlive := false }

/-- PetState.Revive: restore alive with baseline stats, keeping half
the bond. -/
def Pet.revive (s : Pet) (now : ℚ) : Pet :=
  { s with
    isAlive := true
    hunger := 20
    happiness := 50
    energy := 50
    cleanliness := 50
    bond := clamp (s.bond * (1/2))
    lastInteraction := now }

/-- One StateStore mutator call, with the wall-clock time it runs at. -/
inductive Mut where
  | feed (now : ℚ)
  | play (now : ℚ)
  | pet (now : ℚ)
  | touch (now : ℚ)
  | applyStats (cpu mem disk tempC uptimeDays now : ℚ)
  | kill
  | revive (now : ℚ)
  | setIdentity (name speciesID : String) (now : ℚ)

/-- Dispatch one mutator call to the corresponding state operation. -/
def Mut.apply (m : Mut) (s : Pet) : Pet :=
  match m with
  | .feed now => s.feed now
  | .play now => s.play now
  | .pet now => s.pet now
  | .touch now => s.touchInteraction now
  | .applyStats cpu mem disk tempC uptimeDays now =>
      s.applySystemStats cpu mem disk tempC uptimeDays now
  | .kill => s.kill
  | .revive now => s.revive now
  | .setIdentity name speciesID now => s.setIdentity name speciesID now

/-- Apply a sequence of mutator calls in order. -/
def applyMuts (ms : List Mut) (s : Pet) : Pet :=
  ms.foldl (fun t m => m.apply t) s

/-- All five vitals lie in [0, 100]. -/
def vitalsInRange (s : Pet) : Prop :=
  0 ≤ s.hunger ∧ s.hunger ≤ 100 ∧
  0 ≤ s.happiness ∧ s.happiness ≤ 100 ∧
  0 ≤ s.energy ∧ s.energy ≤ 100 ∧
  0 ≤ s.cleanliness ∧ s.cleanliness ≤ 100 ∧
  0 ≤ s.bond ∧ s.bond ≤ 100

instance vitalsInRangeDec (s : Pet) : Decidable (vitalsInRange s) := by
  unfold vitalsInRange
  infer_instance

lemma clamp_nonneg (v : ℚ) : 0 ≤ clamp v := by
  unfold clamp
  split <;> [linarith; skip]
  split <;> linarith

lemma clamp_le_100 (v : ℚ) : clamp v ≤ 100 := by
  unfold clamp
  split <;> [linarith; skip]
  split <;> linarith

lemma clamp_mem (v : ℚ) : 0 ≤ clamp v ∧ clamp v ≤ 100 :=
  ⟨clamp_nonneg v, clamp_le_100 v⟩

example : ((newPetState "a" "b" 0).feed 1).hunger = 0 := by
  norm_num [newPetState, Pet.feed, Pet.bumpBond, clamp]

example : vitalsInRange (newPetState "a" "b" 0) := by
  norm_num [vitalsInRange, newPetState]

lemma mutPreservesVitals (m : Mut) (s : Pet) (h : vitalsInRange s) :
    vitalsInRange (m.apply s) := by
  obtain ⟨h1, h2, h3, h4, h5, h6, h7, h8, h9, h10⟩ := h
  cases m with
  | feed now =>
      exact ⟨clamp_nonneg _, clamp_le_100 _, clamp_nonneg _, clamp_le_100 _,
        h5, h6, h7, h8, clamp_nonneg _, clamp_le_100 _⟩
  | play now =>
      exact ⟨clamp_nonneg _, clamp_le_100 _, clamp_nonneg _, clamp_le_100 _,
        clamp_nonneg _, clamp_le_100 _, h7, h8, clamp_nonneg _, clamp_le_100 _⟩
  | pet now =>
      exact ⟨h1, h2, clamp_nonneg _, clamp_le_100 _, h5, h6, h7, h8,
        clamp_nonneg _, clamp_le_100 _⟩
  | touch now =>
      exact ⟨h1, h2, h3, h4, h5, h6, h7, h8, clamp_nonneg _, clamp_le_100 _⟩
  | applyStats cpu mem disk tempC uptimeDays now =>
      exact ⟨clamp_nonneg _, clamp_le_100 _, clamp_nonneg _, clamp_le_100 _,
        clamp_nonneg _, clamp_le_100 _, clamp_nonneg _, clamp_le_100 _,
        clamp_nonneg _, clamp_le_100 _⟩
  | kill =>
      exact ⟨h1, h2, h3, h4, h5, h6, h7, h8, h9, h10⟩
  | revive now =>
      refine ⟨?_, ?_, ?_, ?_, ?_, ?_, ?_, ?_, clamp_nonneg _, clamp_le_100 _⟩ <;>
        norm_num [Mut.apply, Pet.revive]
  | setIdentity name speciesID now =>
      refine ⟨?_, ?_, ?_, ?_, ?_, ?_, ?_, ?_, ?_, ?_⟩ <;>
        norm_num [Mut.apply, Pet.setIdentity]

/-- Claim C1: every sequence of StateStore mutator calls (Feed, Play,
Pet, TouchInteraction, ApplySystemStats, Kill, Revive, SetIdentity)
applied to a state whose five vitals are each in [0,100] leaves every
vital in [0,100] after each call. -/
theorem c1_vitals_stay_in_range (s : Pet) (h : vitalsInRange s) (ms : List Mut) :
    vitalsInRange (applyMuts ms s) := by
  induction ms generalizing s with
  | nil => exact h
  | cons m rest ih => exact ih (m.apply s) (mutPreservesVitals m s h)

/-- Witness for C1 at a concrete state and mutation sequence. -/
theorem c1_vitals_stay_in_range_witness :
    vitalsInRange (applyMuts
      [Mut.feed 1, Mut.play 2, Mut.applyStats 50 60 70 40 1 3, Mut.kill,
       Mut.revive 4, Mut.setIdentity "n" "octopus" 5, Mut.pet 6, Mut.touch 7]
      (newPetState "a" "octopus" 0)) :=
  c1_vitals_stay_in_range (newPetState "a" "octopus" 0)
    (by norm_num [vitalsInRange, newPetState]) _

/-- The mood cascade as the specification words it: a strict
first-match-wins priority list (spec-side definition, to be compared
with DetermineMood). -/
def moodCascadeSpec (s : Snap) : String :=
  if s.isAlive = false then "dead"
  else if 90 < s.memPercent then "sick"
  else if 70 < s.tempC then "anxious"
  else if s.energy < 20 then "sleepy"
  else if 70 < s.hunger then "hungry"
  else if s.happiness < 30 then "bored"
  else if 70 < s.happiness ∧ s.hunger < 40 ∧ 40 < s.energy then "happy"
  else "content"

/-- Claim C2: DetermineMood equals the strict first-match-wins priority
cascade (not-alive, then mem>90 sick, temp>70 anxious, energy<20
sleepy, hunger>70 hungry, happiness<30 bored, the happy conjunction,
else content); any snapshot with hunger=80, happiness=20, energy=50,
alive, mem=50, temp=50 yields "hungry"; any non-alive snapshot yields
the dead mood regardless of every other field. -/
theorem c2_mood_priority :
    (∀ s : Snap, DetermineMood s = moodCascadeSpec s) ∧
    (∀ s : Snap, s.isAlive = false → DetermineMood s = "dead") ∧
    (∀ s : Snap, s.hunger = 80 → s.happiness = 20 → s.energy = 50 →
      s.isAlive = true → s.memPercent = 50 → s.tempC = 50 →
      DetermineMood s = "hungry") := by
  refine ⟨?_, ?_, ?_⟩
  · intro s
    unfold DetermineMood moodCascadeSpec
    rcases s.isAlive with _ | _
    · simp
    · simp only [Bool.not_true]
      split_ifs <;> simp_all
  · intro s h
    unfold DetermineMood
    simp [h]
  · intro s h1 h2 h3 h4 h5 h6
    unfold DetermineMood
    rw [h1, h2, h3, h4, h5, h6]
    norm_num

/-- Witness for C2 at two concrete snapshots. -/
theorem c2_mood_priority_witness :
    DetermineMood
      { name := "a", speciesID := "b", hunger := 80, happiness := 20,
        energy := 50, cleanliness := 70, bond := 30, bornAt := 0,
        lastInteraction := 0, lastFed := 0, isAlive := true,
        cpuPercent := 80, memPercent := 50, diskPercent := 30, tempC := 50,
        uptimeDays := 1, mood := "", ageDays := 0 } = "hungry" ∧
    DetermineMood
      { name := "a", speciesID := "b", hunger := 0, happiness := 100,
        energy := 100, cleanliness := 100, bond := 100, bornAt := 0,
        lastInteraction := 0, lastFed := 0, isAlive := false,
        cpuPercent := 0, memPercent := 0, diskPercent := 0, tempC := 0,
        uptimeDays := 0, mood := "", ageDays := 0 } = "dead" :=
  ⟨c2_mood_priority.2.2 _ rfl rfl rfl rfl rfl rfl, c2_mood_priority.2.1 _ rfl⟩

/-- The bond gain actually computed by bumpBond, as a function of the
current bond value. -/
def bondGain (b : ℚ) : ℚ :=
  if b > 80 then 1/2 else if b > 50 then 1 else 2

/-- Claim C8 counterexample: at bond exactly 50 the code adds 2, not
the 1 the claim's "between 50 and 80" band predicts. -/
theorem c8_bond_boundary_cex :
    (({ newPetState "a" "b" 0 with bond := 50 } : Pet).bumpBond).bond = 52 ∧
    (52 : ℚ) ≠ 50 + 1 := by
  constructor
  · norm_num [Pet.bumpBond, newPetState, clamp]
  · norm_num

lemma bumpBond_eq (s : Pet) : s.bumpBond.bond = clamp (s.bond + bondGain s.bond) := by
  unfold Pet.bumpBond bondGain
  split_ifs <;> simp_all

/-- Claim C8 (amended): every bond-bumping interaction (Feed, Play,
Pet, TouchInteraction) adds exactly the diminishing-returns gain — +2
when bond ≤ 50, +1 when 50 < bond ≤ 80, +0.5 when bond > 80 — and the
result is clamped at 100. -/
theorem c8_bond_diminishing_returns (s : Pet) (now : ℚ) :
    ((s.bond ≤ 50 → bondGain s.bond = 2) ∧
     (50 < s.bond → s.bond ≤ 80 → bondGain s.bond = 1) ∧
     (80 < s.bond → bondGain s.bond = 1/2)) ∧
    (s.feed now).bond = clamp (s.bond + bondGain s.bond) ∧
    (s.play now).bond = clamp (s.bond + bondGain s.bond) ∧
    (s.pet now).bond = clamp (s.bond + bondGain s.bond) ∧
    (s.touchInteraction now).bond = clamp (s.bond + bondGain s.bond) ∧
    (s.feed now).bond ≤ 100 := by
  refine ⟨⟨?_, ?_, ?_⟩, ?_, ?_, ?_, ?_, ?_⟩
  · intro h
    unfold bondGain
    rw [if_neg (by linarith), if_neg (by linarith)]
  · intro h1 h2
    unfold bondGain
    rw [if_neg (by linarith), if_pos (by linarith)]
  · intro h
    unfold bondGain
    rw [if_pos (by linarith)]
  · exact bumpBond_eq { s with
      hunger := clamp (s.hunger - 30), happiness := clamp (s.happiness + 5),
      lastFed := now, lastInteraction := now }
  · exact bumpBond_eq { s with
      happiness := clamp (s.happiness + 20), energy := clamp (s.energy - 10),
      hunger := clamp (s.hunger + 5), lastInteraction := now }
  · exact bumpBond_eq { s with
      happiness := clamp (s.happiness + 10), lastInteraction := now }
  · exact bumpBond_eq { s with lastInteraction := now }
  · exact clamp_le_100 _

/-- Witness for C8 (amended) at a concrete state. -/
theorem c8_bond_diminishing_returns_witness :
    bondGain 10 = 2 ∧
    ((newPetState "a" "b" 0).feed 1).bond = clamp (10 + bondGain 10) := by
  refine ⟨(c8_bond_diminishing_returns (newPetState "a" "b" 0) 1).1.1 (by norm_num [newPetState]), ?_⟩
  exact (c8_bond_diminishing_returns (newPetState "a" "b" 0) 1).2.1

lemma applyStats96_alive (s : Pet) (now : ℚ) :
    (s.applySystemStats 96 96 10 40 (1/10) now).isAlive = s.isAlive := by
  unfold Pet.applySystemStats
  norm_num [clamp]

/-- Claim C5 counterexample: repeating
ApplySystemStats(cpu=96, mem=96, disk=10, tempC=40, uptimeDays=0.1)
never makes the pet die — energy maps to clamp(100 − 0.1·14) = 98.6,
which never satisfies energy ≤ 5, so IsAlive stays true for every
number of repetitions. -/
theorem c5_scenario_never_dies_cex :
    ¬ ∃ n : ℕ,
      ((fun s : Pet => s.applySystemStats 96 96 10 40 (1/10) 0)^[n]
        (newPetState "a" "b" 0)).isAlive = false := by
  rintro ⟨n, hn⟩
  have key : ∀ m : ℕ,
      ((fun s : Pet => s.applySystemStats 96 96 10 40 (1/10) 0)^[m]
        (newPetState "a" "b" 0)).isAlive = true := by
    intro m
    induction m with
    | zero => rfl
    | succ k ih =>
        rw [Function.iterate_succ_apply', applyStats96_alive]
        exact ih
  rw [key n] at hn
  exact absurd hn (by simp)

/-- Claim C5 (amended): with cpu=96, mem=96, disk=10, tempC=40,
uptimeDays=0.1 the pet never dies (energy maps to 98.6 > 5); in
general ApplySystemStats turns the alive flag false exactly when the
mapped hunger ≥ 95, mem ≥ 95 and mapped energy ≤ 5 hold
simultaneously, once false it stays false under every further
ApplySystemStats call, and Revive() restores it to true. -/
theorem c5_death_trigger (s : Pet) (cpu mem disk tempC uptimeDays now nowR : ℚ) :
    ((s.applySystemStats cpu mem disk tempC uptimeDays now).isAlive = false ↔
      (s.isAlive = false ∨
        (95 ≤ (s.applySystemStats cpu mem disk tempC uptimeDays now).hunger ∧
         95 ≤ (s.applySystemStats cpu mem disk tempC uptimeDays now).memPercent ∧
         (s.applySystemStats cpu mem disk tempC uptimeDays now).energy ≤ 5))) ∧
    (s.isAlive = true → (s.applySystemStats 96 96 10 40 (1/10) now).isAlive = true) ∧
    (s.isAlive = false →
      (s.applySystemStats cpu mem disk tempC uptimeDays now).isAlive = false) ∧
    (s.revive nowR).isAlive = true := by
  refine ⟨?_, ?_, ?_, rfl⟩
  · show (if clamp cpu ≥ 95 ∧ mem ≥ 95 ∧ clamp (100 - uptimeDays * 14) ≤ 5
        then false else s.isAlive) = false ↔ _
    show _ ↔ s.isAlive = false ∨
      (95 ≤ clamp cpu ∧ 95 ≤ mem ∧ clamp (100 - uptimeDays * 14) ≤ 5)
    split_ifs with h
    · simp [h]
    · constructor
      · intro hs
        exact Or.inl hs
      · rintro (hs | hc)
        · exact hs
        · exact absurd hc h
  · intro h
    rw [applyStats96_alive, h]
  · intro h
    show (if _ then false else s.isAlive) = false
    split_ifs with hc
    · rfl
    · exact h

/-- Witness for C5 (amended) at a concrete state. -/
theorem c5_death_trigger_witness :
    ((newPetState "a" "b" 0).applySystemStats 96 96 10 40 (1/10) 2).isAlive = true :=
  (c5_death_trigger (newPetState "a" "b" 0) 96 96 10 40 (1/10) 2 3).2.1 rfl

/-- Brain.rateAllow from internal/brain/provider.go: evict entries at
or before now − window, deny without recording when the count reached
rateMax, otherwise record now and allow. Returns (allowed, new window). -/
def rateAllow (rateMax : ℕ) (rateDur : ℚ) (w : List ℚ) (now : ℚ) : Bool × List ℚ :=
  let cutoff := now - rateDur
  let valid := w.filter (fun t => decide (cutoff < t))
  if rateMax ≤ valid.length then (false, valid)
  else (true, valid ++ [now])

/-- One Allow() call acting on (accepted-call times, window). -/
def rlStep (rateMax : ℕ) (rateDur : ℚ) (st : List ℚ × List ℚ) (now : ℚ) :
    List ℚ × List ℚ :=
  let r := rateAllow rateMax rateDur st.2 now
  (if r.1 then st.1 ++ [now] else st.1, r.2)

/-- Run a whole sequence of Allow() calls from the initial empty
limiter, collecting the times of the accepted calls. -/
def rlRun (rateMax : ℕ) (rateDur : ℚ) (times : List ℚ) : List ℚ × List ℚ :=
  times.foldl (rlStep rateMax rateDur) ([], [])

/-- How many of the times in acc fall in the trailing interval
(T − D, T]. -/
def countIn (acc : List ℚ) (D T : ℚ) : ℕ :=
  (acc.filter (fun a => decide (T - D < a) && decide (a ≤ T))).length

lemma length_filter_le_of_imp {α : Type} (p q : α → Bool) :
    ∀ l : List α, (∀ x ∈ l, p x = true → q x = true) →
      (l.filter p).length ≤ (l.filter q).length := by
  intro l
  induction l with
  | nil => intro _; simp
  | cons a l ih =>
      intro h
      have hrest : (l.filter p).length ≤ (l.filter q).length :=
        ih fun x hx => h x (List.mem_cons_of_mem a hx)
      rcases hp : p a with _ | _
      · rcases hq : q a with _ | _
        · simpa [List.filter_cons, hp, hq] using hrest
        · simp only [List.filter_cons, hp, hq, if_neg, if_pos, List.length_cons]
          simp only [Bool.false_eq_true, if_false]
          exact Nat.le_succ_of_le hrest
      · have hq : q a = true := h a (List.mem_cons_self a l) hp
        simp only [List.filter_cons, hp, hq, List.length_cons]
        simp only [if_pos, List.length_cons]
        exact Nat.succ_le_succ hrest

lemma rlRun_inv (rateMax : ℕ) (D : ℚ) (hD : 0 < D) :
    ∀ (times : List ℚ) (tl : ℚ) (acc w : List ℚ),
      times.Pairwise (· ≤ ·) →
      (∀ u ∈ times, tl ≤ u) →
      (∀ a ∈ acc, a ≤ tl) →
      w = acc.filter (fun a => decide (tl - D < a)) →
      (∀ T, countIn acc D T ≤ rateMax) →
      ∀ T, countIn (times.foldl (rlStep rateMax D) (acc, w)).1 D T ≤ rateMax := by
  intro times
  induction times with
  | nil =>
      intro tl acc w _ _ _ _ hcount T
      exact hcount T
  | cons u rest ih =>
      intro tl acc w hpw htl hacc hw hcount T
      have htlu : tl ≤ u := htl u (List.mem_cons_self u rest)
      have hvalid : w.filter (fun t => decide (u - D < t)) =
          acc.filter (fun a => decide (u - D < a)) := by
        rw [hw, List.filter_filter]
        apply List.filter_congr
        intro a _
        by_cases hua : u - D < a
        · have hta : tl - D < a := by linarith
          simp [hua, hta]
        · simp [hua]
      rw [List.foldl_cons]
      have hpw' : rest.Pairwise (· ≤ ·) := (List.pairwise_cons.mp hpw).2
      have hrest_lb : ∀ v ∈ rest, u ≤ v := (List.pairwise_cons.mp hpw).1
      by_cases hfull :
          rateMax ≤ ((w.filter (fun t => decide (u - D < t))).length)
      · -- denied: nothing recorded
        have hstep : rlStep rateMax D (acc, w) u =
            (acc, w.filter (fun t => decide (u - D < t))) := by
          unfold rlStep rateAllow
          simp [hfull]
        rw [hstep]
        exact ih u acc _ hpw' hrest_lb
          (fun a ha => le_trans (hacc a ha) htlu) hvalid hcount T
      · -- allowed: u is recorded in both lists
        have hstep : rlStep rateMax D (acc, w) u =
            (acc ++ [u], w.filter (fun t => decide (u - D < t)) ++ [u]) := by
          unfold rlStep rateAllow
          simp [hfull]
        rw [hstep]
        have hlt : (w.filter (fun t => decide (u - D < t))).length < rateMax :=
          Nat.lt_of_not_le hfull
        have hub : ∀ a ∈ acc ++ [u], a ≤ u := by
          intro a ha
          rcases List.mem_append.mp ha with h1 | h1
          · exact le_trans (hacc a h1) htlu
          · simp only [List.mem_singleton] at h1
            exact le_of_eq h1
        have hw' : w.filter (fun t => decide (u - D < t)) ++ [u] =
            (acc ++ [u]).filter (fun a => decide (u - D < a)) := by
          rw [hvalid, List.filter_append]
          have hself : ([u].filter (fun a => decide (u - D < a))) = [u] := by
            have : u - D < u := by linarith
            simp [this]
          rw [hself]
        have hcount' : ∀ T', countIn (acc ++ [u]) D T' ≤ rateMax := by
          intro T'
          unfold countIn
          rw [List.filter_append, List.length_append]
          by_cases hu : (T' - D < u ∧ u ≤ T')
          · have hone : (([u].filter
                (fun a => decide (T' - D < a) && decide (a ≤ T'))).length) = 1 := by
              simp [hu.1, hu.2]
            rw [hone]
            have hsub : (acc.filter
                (fun a => decide (T' - D < a) && decide (a ≤ T'))).length ≤
                (acc.filter (fun a => decide (u - D < a))).length := by
              apply length_filter_le_of_imp
              intro x _ hx
              simp only [Bool.and_eq_true, decide_eq_true_eq] at hx
              have : u - D < x := by
                have h2 := hu.2
                have h3 := hx.1
                linarith
              simpa using this
            have hvlen : (acc.filter (fun a => decide (u - D < a))).length <
                rateMax := by
              rw [← hvalid]
              exact hlt
            omega
          · have hzero : (([u].filter
                (fun a => decide (T' - D < a) && decide (a ≤ T'))).length) = 0 := by
              rcases not_and_or.mp hu with h1 | h1 <;> simp [h1]
            rw [hzero]
            have := hcount T'
            unfold countIn at this
            omega
        exact ih u (acc ++ [u]) _ hpw' hrest_lb hub hw' hcount' T

/-- Claim C3: for a limiter with maxRequests rateMax over a positive
window D, and any sequence of Allow() calls at (wall-clock, hence
nondecreasing) times, no trailing interval (T − D, T] ever contains
more than rateMax calls that returned true; moreover each call first
evicts entries at or before now − D, a denied call records nothing,
and an allowed call records its timestamp. -/
theorem c3_rate_limiter_window (rateMax : ℕ) (D : ℚ) (times : List ℚ)
    (hD : 0 < D) (hmono : times.Pairwise (· ≤ ·)) :
    (∀ T, countIn (rlRun rateMax D times).1 D T ≤ rateMax) ∧
    (∀ w now, (rateAllow rateMax D w now).1 = false →
      (rateAllow rateMax D w now).2 =
        w.filter (fun t => decide (now - D < t))) ∧
    (∀ w now, (rateAllow rateMax D w now).1 = true →
      (rateAllow rateMax D w now).2 =
        w.filter (fun t => decide (now - D < t)) ++ [now]) := by
  refine ⟨?_, ?_, ?_⟩
  · intro T
    unfold rlRun
    cases times with
    | nil => simp [countIn]
    | cons u rest =>
        have hlb : ∀ v ∈ u :: rest, u ≤ v := by
          intro v hv
          rcases List.mem_cons.mp hv with h | h
          · exact le_of_eq h.symm
          · exact (List.pairwise_cons.mp hmono).1 v h
        exact rlRun_inv rateMax D hD (u :: rest) u [] [] hmono hlb
          (by intro a ha; cases ha) (by simp) (by intro T'; simp [countIn]) T
  · intro w now h
    unfold rateAllow at h ⊢
    by_cases hc : rateMax ≤ (w.filter (fun t => decide (now - D < t))).length
    · simp [hc]
    · simp [hc] at h
  · intro w now h
    unfold rateAllow at h ⊢
    by_cases hc : rateMax ≤ (w.filter (fun t => decide (now - D < t))).length
    · simp [hc] at h
    · simp [hc]

/-- Witness for C3 at a concrete call sequence. -/
theorem c3_rate_limiter_window_witness :
    countIn (rlRun 1 2 [0, 1, 3]).1 2 (7/2) ≤ 1 :=
  (c3_rate_limiter_window 1 2 [0, 1, 3] (by norm_num)
    (by norm_num [List.pairwise_cons])).1 (7/2)

/-- ToolCall from internal/brain/provider.go. -/
structure ToolCall where
  id : String
  name : String
  input : String
deriving DecidableEq, Repr

/-- ToolResult from internal/brain/provider.go. -/
structure ToolResult where
  id : String
  content : String
  isError : Bool
deriving DecidableEq, Repr

/-- Message from internal/brain/provider.go. -/
structure Message where
  role : String
  text : String
  toolCalls : List ToolCall
  toolResults : List ToolResult
deriving DecidableEq, Repr

/-- Response from internal/brain/provider.go. -/
structure Response where
  text : String
  toolCalls : List ToolCall
  done : Bool
deriving DecidableEq, Repr

/-- The fixed fallback returned when the tool loop exhausts its
iteration budget. -/
def maxIterFallback : String :=
  "I got a bit carried away investigating... let me summarize what I found so far."

/-- The fixed soft-decline message returned when the rate limiter
denies the call. -/
def rateLimitedText : String :=
  "I need a moment to catch my breath... too many messages! Try again shortly."

/-- Result of Ask together with how many provider Send calls it made. -/
structure AskOutcome where
  result : Except String String
  providerCalls : ℕ
deriving Repr

/-- Execute the tool calls of one response sequentially, in order,
producing one ToolResult per ToolCall with the matching id (the body
of the per-response loop in Brain.Ask). -/
def mkToolResults (execTool : String → String → String × Bool)
    (tcs : List ToolCall) : List ToolResult :=
  tcs.map (fun tc =>
    { id := tc.id
      content := (execTool tc.name tc.input).1
      isError := (execTool tc.name tc.input).2 })

/-- The tool-use loop of Brain.Ask: `for i := 0; i <= maxTools; i++`
expressed with fuel = maxTools + 1. A provider error aborts; done
returns the text; otherwise the assistant turn (text + tool calls) and
a user turn carrying all results are appended, in that order, before
the next provider call. When fuel runs out the fixed fallback text is
returned with no error. -/
def askLoop (provider : List Message → Except String Response)
    (execTool : String → String → String × Bool) :
    ℕ → List Message → AskOutcome
  | 0, _ => { result := .ok maxIterFallback, providerCalls := 0 }
  | fuel + 1, history =>
    match provider history with
    | .error e => { result := .error e, providerCalls := 1 }
    | .ok resp =>
      if resp.done then { result := .ok resp.text, providerCalls := 1 }
      else
        let assistantMsg : Message :=
          { role := "assistant", text := resp.text,
            toolCalls := resp.toolCalls, toolResults := [] }
        let resultMsg : Message :=
          { role := "user", text := "", toolCalls := [],
            toolResults := mkToolResults execTool resp.toolCalls }
        let rest := askLoop provider execTool fuel
          (history ++ [assistantMsg, resultMsg])
        { result := rest.result, providerCalls := rest.providerCalls + 1 }

/-- Brain.Ask: rate-limit gate, then the tool-use loop seeded with the
user's turn. Returns the outcome and the limiter's new window. -/
def ask (rateMax : ℕ) (rateDur : ℚ)
    (provider : List Message → Except String Response)
    (execTool : String → String → String × Bool)
    (maxTools : ℕ) (w : List ℚ) (now : ℚ) (userMessage : String) :
    AskOutcome × List ℚ :=
  let r := rateAllow rateMax rateDur w now
  if r.1 then
    (askLoop provider execTool (maxTools + 1)
      [{ role := "user", text := userMessage, toolCalls := [], toolResults := [] }],
     r.2)
  else
    ({ result := .ok rateLimitedText, providerCalls := 0 }, r.2)

lemma askLoop_calls_le (provider : List Message → Except String Response)
    (execTool : String → String → String × Bool) :
    ∀ (fuel : ℕ) (history : List Message),
      (askLoop provider execTool fuel history).providerCalls ≤ fuel := by
  intro fuel
  induction fuel with
  | zero => intro history; simp [askLoop]
  | succ n ih =>
      intro history
      unfold askLoop
      cases hp : provider history with
      | error e => simp
      | ok resp =>
          by_cases hd : resp.done
          · simp [hd]
          · simp only [hd, if_false]
            exact Nat.succ_le_succ (ih _)

lemma askLoop_all_tools (provider : List Message → Except String Response)
    (execTool : String → String → String × Bool)
    (hp : ∀ h, ∃ r, provider h = .ok r ∧ r.done = false) :
    ∀ (fuel : ℕ) (history : List Message),
      askLoop provider execTool fuel history =
        { result := .ok maxIterFallback, providerCalls := fuel } := by
  intro fuel
  induction fuel with
  | zero => intro history; rfl
  | succ n ih =>
      intro history
      obtain ⟨r, hr, hd⟩ := hp history
      unfold askLoop
      rw [hr]
      simp only [hd, Bool.false_eq_true, if_false]
      rw [ih]

/-- Claim C4: the tool-use loop performs at most maxToolIterations + 1
provider round-trips; and whenever every provider response is
done=false with a non-empty tool-call list, an admitted Ask makes
exactly maxToolIterations + 1 provider calls and returns the fixed
fallback text with no error. -/
theorem c4_ask_bounded_iterations (rateMax : ℕ) (rateDur : ℚ)
    (provider : List Message → Except String Response)
    (execTool : String → String → String × Bool)
    (maxTools : ℕ) (w : List ℚ) (now : ℚ) (userMessage : String) :
    ((ask rateMax rateDur provider execTool maxTools w now userMessage).1.providerCalls
        ≤ maxTools + 1) ∧
    ((rateAllow rateMax rateDur w now).1 = true →
      (∀ h, ∃ r, provider h = .ok r ∧ r.done = false ∧ r.toolCalls ≠ []) →
      (ask rateMax rateDur provider execTool maxTools w now userMessage).1 =
        { result := .ok maxIterFallback, providerCalls := maxTools + 1 }) := by
  constructor
  · unfold ask
    by_cases hr : (rateAllow rateMax rateDur w now).1
    · simp only [hr, if_true]
      exact askLoop_calls_le provider execTool (maxTools + 1) _
    · simp only [hr]
      simp
  · intro hr hp
    unfold ask
    simp only [hr, if_true]
    exact askLoop_all_tools provider execTool
      (fun h => ⟨(hp h).choose, (hp h).choose_spec.1, (hp h).choose_spec.2.1⟩)
      (maxTools + 1) _

/-- Witness for C4: a provider stub that always wants one more tool
call makes an admitted Ask with maxTools = 2 return the fallback after
exactly 3 provider calls. -/
theorem c4_ask_bounded_iterations_witness :
    (ask 1 2 (fun _ => .ok { text := "", toolCalls := [{ id := "t1", name := "run_shell", input := "ls" }], done := false })
      (fun _ _ => ("out", false)) 2 [] 0 "hi").1 =
      { result := .ok maxIterFallback, providerCalls := 3 } :=
  (c4_ask_bounded_iterations 1 2
    (fun _ => .ok { text := "", toolCalls := [{ id := "t1", name := "run_shell", input := "ls" }], done := false })
    (fun _ _ => ("out", false)) 2 [] 0 "hi").2
    (by norm_num [rateAllow])
    (fun h => ⟨_, rfl, rfl, by simp⟩)

/-- Claim C9: when a provider response has done=false, Ask executes the
returned tool calls sequentially in order, produces exactly one
ToolResult per ToolCall with the matching id, and appends to history
one assistant turn carrying the text and tool calls followed by one
user-role turn carrying all results in the same order, before the next
provider call. -/
theorem c9_tool_results_ordered
    (provider : List Message → Except String Response)
    (execTool : String → String → String × Bool)
    (fuel : ℕ) (history : List Message) (resp : Response)
    (hp : provider history = .ok resp) (hd : resp.done = false) :
    (mkToolResults execTool resp.toolCalls).length = resp.toolCalls.length ∧
    (mkToolResults execTool resp.toolCalls).map ToolResult.id =
      resp.toolCalls.map ToolCall.id ∧
    (∀ i (hi : i < resp.toolCalls.length),
      (mkToolResults execTool resp.toolCalls).get
          ⟨i, by simpa [mkToolResults] using hi⟩ =
        { id := (resp.toolCalls.get ⟨i, hi⟩).id
          content := (execTool (resp.toolCalls.get ⟨i, hi⟩).name
            (resp.toolCalls.get ⟨i, hi⟩).input).1
          isError := (execTool (resp.toolCalls.get ⟨i, hi⟩).name
            (resp.toolCalls.get ⟨i, hi⟩).input).2 }) ∧
    askLoop provider execTool (fuel + 1) history =
      { result := (askLoop provider execTool fuel (history ++
          [{ role := "assistant", text := resp.text,
             toolCalls := resp.toolCalls, toolResults := [] },
           { role := "user", text := "", toolCalls := [],
             toolResults := mkToolResults execTool resp.toolCalls }])).result,
        providerCalls := (askLoop provider execTool fuel (history ++
          [{ role := "assistant", text := resp.text,
             toolCalls := resp.toolCalls, toolResults := [] },
           { role := "user", text := "", toolCalls := [],
             toolResults := mkToolResults execTool resp.toolCalls }])).providerCalls
          + 1 } := by
  refine ⟨by simp [mkToolResults], ?_, ?_, ?_⟩
  · simp [mkToolResults, List.map_map]
  · intro i hi
    simp [mkToolResults]
  · simp only [askLoop, hp, hd, Bool.false_eq_true, if_false]

/-- A two-tool-call provider response used to exercise the loop. -/
def demoCalls : List ToolCall :=
  [{ id := "a", name := "run_shell", input := "ls" },
   { id := "b", name := "run_shell", input := "df" }]

/-- A provider stub that always proposes the two demo tool calls. -/
def demoProvider : List Message → Except String Response :=
  fun _ => .ok { text := "t", toolCalls := demoCalls, done := false }

/-- A pure stand-in for executeTool. -/
def demoExec : String → String → String × Bool :=
  fun n i => (n ++ i, false)

/-- Witness for C9 at a concrete provider response with two tool
calls. -/
theorem c9_tool_results_ordered_witness :
    (mkToolResults demoExec demoCalls).map ToolResult.id =
      demoCalls.map ToolCall.id :=
  (c9_tool_results_ordered demoProvider demoExec 0 [] _ rfl rfl).2.1

/-- blockedPatterns from internal/shell/shell.go (commands modelled as
character lists). -/
def blockedPatterns : List (List Char) :=
  ["rm -rf /".toList, "rm -rf /*".toList, "mkfs".toList, "dd if=".toList,
   ":()\x7b".toList, "chmod -R 777".toList, "wget".toList, "curl".toList,
   "> /dev/sd".toList, "shutdown".toList, "reboot".toList, "halt".toList,
   "init 0".toList, "init 6".toList, "passwd".toList, "adduser".toList,
   "useradd".toList, "userdel".toList, "visudo".toList, "iptables".toList,
   "nft ".toList, "systemctl disable".toList, "systemctl mask".toList]

/-- checkBlocked from internal/shell/shell.go: lower-case the command
and return the first deny-list pattern it contains, if any. -/
def checkBlocked (command : List Char) : Option (List Char) :=
  let lower := command.map Char.toLower
  blockedPatterns.find? (fun p => decide ((p.map Char.toLower) <:+: lower))

/-- What the operating system reports for one spawned subprocess:
combined output, whether the deadline expired, whether the exit status
was non-zero. Passed in as an oracle since real process execution is
outside the model. -/
structure SpawnOutcome where
  out : List Char
  timedOut : Bool
  failed : Bool

/-- Result of Executor.Run, with a flag recording whether a subprocess
was spawned at all. -/
structure RunOutcome where
  out : List Char
  err : Option (List Char)
  spawned : Bool
deriving DecidableEq

/-- The truncation marker appended to over-long output. -/
def truncMarker : List Char := "\n... [output truncated]".toList

/-- Executor.Run from internal/shell/shell.go: blocked-pattern check
first (failing fast with no subprocess), then spawn, truncate output
to maxOutput, and surface timeout / non-zero-exit as errors wrapping
the (possibly truncated) output. -/
def runCommand (spawn : List Char → SpawnOutcome) (maxOutput : ℕ)
    (command : List Char) : RunOutcome :=
  match checkBlocked command with
  | some pat =>
      { out := []
        err := some ("blocked command pattern: ".toList ++ pat)
        spawned := false }
  | none =>
      let so := spawn command
      let result := if maxOutput < so.out.length
        then so.out.take maxOutput ++ truncMarker
        else so.out
      if so.timedOut then
        { out := result, err := some "command timed out".toList, spawned := true }
      else if so.failed then
        { out := result, err := some "command failed".toList, spawned := true }
      else
        { out := result, err := none, spawned := true }

/-- Claim C6: for every command containing (case-insensitively) a
deny-list pattern — in particular any command containing "rm -rf /" —
Run returns a non-nil descriptive error and empty output and never
reaches the subprocess-spawning branch. -/
theorem c6_blocked_never_spawns (spawn : List Char → SpawnOutcome)
    (maxOutput : ℕ) (command pat : List Char)
    (hmem : pat ∈ blockedPatterns)
    (hinf : (pat.map Char.toLower) <:+: (command.map Char.toLower)) :
    (runCommand spawn maxOutput command).err.isSome = true ∧
    (runCommand spawn maxOutput command).out = [] ∧
    (runCommand spawn maxOutput command).spawned = false := by
  have hsome : (checkBlocked command).isSome = true := by
    unfold checkBlocked
    rw [List.find?_isSome]
    exact ⟨pat, hmem, by simpa using hinf⟩
  cases h : checkBlocked command with
  | none => rw [h] at hsome; simp at hsome
  | some p =>
      unfold runCommand
      rw [h]
      exact ⟨rfl, rfl, rfl⟩

/-- Witness for C6: a command containing "rm -rf /" is rejected with
an error, empty output and no spawn. -/
theorem c6_blocked_never_spawns_witness :
    (runCommand (fun _ => ⟨"data".toList, false, false⟩) 64
        "sudo RM -rf / --no-preserve-root".toList).err.isSome = true ∧
    (runCommand (fun _ => ⟨"data".toList, false, false⟩) 64
        "sudo RM -rf / --no-preserve-root".toList).out = [] ∧
    (runCommand (fun _ => ⟨"data".toList, false, false⟩) 64
        "sudo RM -rf / --no-preserve-root".toList).spawned = false :=
  c6_blocked_never_spawns _ 64 _ "rm -rf /".toList (by decide) (by decide)

/-- A structured JSON-like value, the shape json.MarshalIndent writes
and json.Unmarshal reads. -/
inductive JVal where
  | jstr (s : String)
  | jnum (q : ℚ)
  | jbool (b : Bool)
  | jobj (fields : List (String × JVal))

/-- Look a key up in a JSON object's field list. -/
def jget (fields : List (String × JVal)) (key : String) : Option JVal :=
  (fields.find? (fun kv => kv.1 == key)).map (fun kv => kv.2)

/-- Read a JSON value as a string. -/
def JVal.asStr : JVal → Option String
  | .jstr s => some s
  | _ => none

/-- Read a JSON value as a number. -/
def JVal.asNum : JVal → Option ℚ
  | .jnum q => some q
  | _ => none

/-- Read a JSON value as a boolean. -/
def JVal.asBool : JVal → Option Bool
  | .jbool b => some b
  | _ => none

/-- The object json.MarshalIndent produces for a PetState: exactly the
json-tagged fields, and nothing derived (no mood, no age). -/
def marshalPet (s : Pet) : JVal :=
  .jobj [("name", .jstr s.name), ("species_id", .jstr s.speciesID),
    ("hunger", .jnum s.hunger), ("happiness", .jnum s.happiness),
    ("energy", .jnum s.energy), ("cleanliness", .jnum s.cleanliness),
    ("bond", .jnum s.bond), ("born_at", .jnum s.bornAt),
    ("last_interaction", .jnum s.lastInteraction),
    ("last_fed", .jnum s.lastFed), ("is_alive", .jbool s.isAlive),
    ("cpu_percent", .jnum s.cpuPercent), ("mem_percent", .jnum s.memPercent),
    ("disk_percent", .jnum s.diskPercent), ("temp_c", .jnum s.tempC),
    ("uptime_days", .jnum s.uptimeDays)]

/-- The keys of a JSON object. -/
def jkeys : JVal → List String
  | .jobj fields => fields.map (fun kv => kv.1)
  | _ => []

/-- json.Unmarshal into a PetState: read each tagged field back. -/
def unmarshalPet (v : JVal) : Option Pet :=
  match v with
  | .jobj fs => do
      let name ← (jget fs "name").bind JVal.asStr
      let speciesID ← (jget fs "species_id").bind JVal.asStr
      let hunger ← (jget fs "hunger").bind JVal.asNum
      let happiness ← (jget fs "happiness").bind JVal.asNum
      let energy ← (jget fs "energy").bind JVal.asNum
      let cleanliness ← (jget fs "cleanliness").bind JVal.asNum
      let bond ← (jget fs "bond").bind JVal.asNum
      let bornAt ← (jget fs "born_at").bind JVal.asNum
      let lastInteraction ← (jget fs "last_interaction").bind JVal.asNum
      let lastFed ← (jget fs "last_fed").bind JVal.asNum
      let isAlive ← (jget fs "is_alive").bind JVal.asBool
      let cpuPercent ← (jget fs "cpu_percent").bind JVal.asNum
      let memPercent ← (jget fs "mem_percent").bind JVal.asNum
      let diskPercent ← (jget fs "disk_percent").bind JVal.asNum
      let tempC ← (jget fs "temp_c").bind JVal.asNum
      let uptimeDays ← (jget fs "uptime_days").bind JVal.asNum
      pure { name := name, speciesID := speciesID, hunger := hunger,
             happiness := happiness, energy := energy,
             cleanliness := cleanliness, bond := bond, bornAt := bornAt,
             lastInteraction := lastInteraction, lastFed := lastFed,
             isAlive := isAlive, cpuPercent := cpuPercent,
             memPercent := memPercent, diskPercent := diskPercent,
             tempC := tempC, uptimeDays := uptimeDays }
  | _ => none

/-- What reading a path can yield: a well-formed stored value, or an
unreadable file (read error). A missing path is absence from the
store. -/
inductive FileState where
  | good (v : JVal)
  | unreadable

/-- PetState.Save: atomic write-temp-then-rename; its net effect on
the store is that the path now maps to the marshalled record. -/
def savePet (fs : List (String × FileState)) (path : String) (s : Pet) :
    List (String × FileState) :=
  (path, .good (marshalPet s)) :: fs

/-- The zero-valued PetState that Load returns for a missing file
(Go's &PetState\x7b\x7d). -/
def zeroPet : Pet :=
  { name := "", speciesID := "", hunger := 0, happiness := 0, energy := 0,
    cleanliness := 0, bond := 0, bornAt := 0, lastInteraction := 0,
    lastFed := 0, isAlive := false, cpuPercent := 0, memPercent := 0,
    diskPercent := 0, tempC := 0, uptimeDays := 0 }

/-- pet.Load: missing file yields the zero state with no error; a read
failure or a JSON-decode failure yields an error and no state. -/
def loadPet (fs : List (String × FileState)) (path : String) :
    Except String Pet :=
  match ((fs.find? (fun kv => kv.1 == path)).map (fun kv => kv.2) :
      Option FileState) with
  | none => .ok zeroPet
  | some FileState.unreadable => .error "read state"
  | some (FileState.good v) =>
      match unmarshalPet v with
      | none => .error "unmarshal state"
      | some s => .ok s

lemma unmarshal_marshal (s : Pet) : unmarshalPet (marshalPet s) = some s := by
  rfl

/-- Claim C7: Save(path) then Load(path) yields a state whose
Snapshot() agrees field-for-field with the pre-save Snapshot() on all
persisted fields, with mood and ageDays recomputed rather than stored
(the marshalled record has no mood or age key). -/
theorem c7_save_load_roundtrip (fs : List (String × FileState))
    (path : String) (s : Pet) (now : ℚ) :
    loadPet (savePet fs path s) path = .ok s ∧
    (∀ s2, loadPet (savePet fs path s) path = .ok s2 →
      s2.snapshot now = s.snapshot now) ∧
    (jkeys (marshalPet s)).contains "mood" = false ∧
    (jkeys (marshalPet s)).contains "age_days" = false := by
  have hload : loadPet (savePet fs path s) path = .ok s := by
    unfold loadPet savePet
    simp only [List.find?_cons, beq_self_eq_true, if_pos, Option.map_some']
    rw [unmarshal_marshal]
  refine ⟨hload, ?_, by simp [jkeys, marshalPet], by simp [jkeys, marshalPet]⟩
  intro s2 h2
  rw [hload] at h2
  cases h2
  rfl

/-- Witness for C7 at a concrete state and path. -/
theorem c7_save_load_roundtrip_witness :
    loadPet (savePet [] "pet.json" (newPetState "Inky" "octopus" 7))
      "pet.json" = .ok (newPetState "Inky" "octopus" 7) :=
  (c7_save_load_roundtrip [] "pet.json" (newPetState "Inky" "octopus" 7) 9).1

/-- Claim C10: Load on a missing path returns no error and the
zero-valued state — empty name and species (not onboarded), zero
vitals, not alive — rather than the fresh-pet baseline NewPetState
assigns; an unreadable file or a JSON-decode failure instead returns
an error and no state. -/
theorem c10_load_missing_zero_state (fs : List (String × FileState))
    (path : String)
    (hmiss : fs.find? (fun kv => kv.1 == path) = none) :
    loadPet fs path = .ok zeroPet ∧
    zeroPet.name = "" ∧ zeroPet.speciesID = "" ∧
    zeroPet.isOnboarded = false ∧
    zeroPet.hunger = 0 ∧ zeroPet.happiness = 0 ∧ zeroPet.energy = 0 ∧
    zeroPet.cleanliness = 0 ∧ zeroPet.bond = 0 ∧ zeroPet.isAlive = false ∧
    (∀ n sp t, zeroPet.happiness ≠ (newPetState n sp t).happiness) ∧
    (∀ v, unmarshalPet v = none →
      loadPet ((path, FileState.good v) :: fs) path = .error "unmarshal state") ∧
    loadPet ((path, FileState.unreadable) :: fs) path = .error "read state" := by
  refine ⟨?_, rfl, rfl, rfl, rfl, rfl, rfl, rfl, rfl, rfl, ?_, ?_, ?_⟩
  · unfold loadPet
    rw [hmiss]
    rfl
  · intro n sp t h
    norm_num [zeroPet, newPetState] at h
  · intro v hv
    unfold loadPet
    simp only [List.find?_cons, beq_self_eq_true, if_pos, Option.map_some']
    rw [hv]
  · unfold loadPet
    simp only [List.find?_cons, beq_self_eq_true, if_pos, Option.map_some']

/-- Witness for C10 on the empty store. -/
theorem c10_load_missing_zero_state_witness :
    loadPet [] "pet.json" = .ok zeroPet :=
  (c10_load_missing_zero_state [] "pet.json" rfl).1
